import Mathlib

/-
Verification of the chat command router of `swarms_gui.py`
(`parse_chat_command`, `execute_chat_command`, `chat_interface` and the
global `chat_agent_state` record).

Modelling conventions:
* Python strings are Lean `String`s; `str.strip()` is `pyStrip`, which
  removes the ASCII whitespace characters space, tab, newline and
  carriage return from both ends (the characters relevant here).
* The mutable global `chat_agent_state` dict is the record
  `ChatAgentState`.  Because Python holds agent handles by reference
  (commands such as `/model` mutate attributes of the held object
  without reassigning `chat_agent_state["current_agent"]`), agent
  handles live in an explicit store (`store : List Agent`) and
  `current_agent` is an optional reference (index) into that store.
* Every delegated call that can raise (the `Agent` constructor, the
  agent `run` call, `float()`, the diagnostics helpers, `subprocess`,
  file I/O) is a field of the environment record `ChatEnv`; an
  exception is an `Except.error`/`Option` failure value carrying the
  stringified exception, mirroring the `except Exception as e` blocks.
* `float()` parsing and `f"{x}"` float formatting are abstracted as
  `pyFloat : String → Option Rat` and `pyFloatRepr : Rat → String`.
-/

namespace SwarmsGui

/-- Python whitespace test for the characters occurring in this code
(space, tab, newline, carriage return). -/
def pySpace (c : Char) : Bool :=
  c = ' ' || c = '\t' || c = '\n' || c = '\r'

/-- Python `str.strip()` on the character list: drop the leading whitespace
run, then the trailing whitespace run. -/
def pyStripL (l : List Char) : List Char :=
  ((l.dropWhile pySpace).reverse.dropWhile pySpace).reverse

/-- Python `str.strip()`. -/
def pyStrip (s : String) : String :=
  String.mk (pyStripL s.toList)

/-- Python `str.lower()` (ASCII case folding, which covers the command
tokens used here). -/
def strLower (s : String) : String :=
  String.mk (s.toList.map Char.toLower)

/-- The test `message.startswith("/")`: the prefix is a single character, so
this is a first-character test. -/
def startsSlash (s : String) : Bool :=
  match s.toList with
  | '/' :: _ => true
  | _ => false

/-- One `{"role": ..., "content": ...}` entry of
`chat_agent_state["conversation_history"]`. -/
structure Msg where
  role : String
  content : String
deriving DecidableEq, Repr

/-- An agent handle: the attributes of the constructed `Agent` object
that the router reads and mutates (`agent_name`, `model_name`,
`temperature`, `streaming_on`). -/
structure Agent where
  agent_name : String
  model_name : String
  temperature : Rat
  streaming_on : Bool
deriving DecidableEq, Repr

/-- Placeholder agent used for store lookups at indices that no
reachable state ever produces (Python references cannot dangle). -/
def agentDefault : Agent :=
  { agent_name := "", model_name := "", temperature := 0, streaming_on := false }

/-- The global `chat_agent_state` dict plus the object store holding
the agent handles it references. -/
structure ChatAgentState where
  current_agent : Option Nat
  agent_name : String
  conversation_history : List Msg
  store : List Agent
deriving DecidableEq, Repr

/-- The global `chat_agent_state` as initialised at module load. -/
def initialState : ChatAgentState :=
  { current_agent := none, agent_name := "Assistant"
    conversation_history := [], store := [] }

/-- Result of `parse_chat_command`: the `"command"` dict or the
`"message"` dict. -/
inductive ParsedInput where
  | command (command : String) (args : String) (raw : String)
  | message (content : String) (raw : String)
deriving DecidableEq, Repr

/-- Embedding of `parse_chat_command`: strip the input; if it starts with `/`,
`message.split(maxsplit=1)` yields the command token (lowercased,
minus the slash) and the remainder (with the whole separating
whitespace run removed, which is what `split` does); otherwise the
stripped input is a plain message. -/
def parseChatCommand (message : String) : ParsedInput :=
  let m := pyStrip message
  if startsSlash m then
    let s0 := m.toList.dropWhile pySpace
    let tok := s0.takeWhile (fun c => !pySpace c)
    let rest := (s0.dropWhile (fun c => !pySpace c)).dropWhile pySpace
    ParsedInput.command (strLower (String.mk (tok.drop 1))) (String.mk rest) m
  else
    ParsedInput.message m m

/-- Outcomes of every delegated call the router makes.  A `some`
error-string (or `Except.error`) models the call raising an exception
whose `str(e)` is that string. -/
structure ChatEnv where
  agentCtor : String → Option String
  agentRun : Agent → String → Except String String
  pyFloat : String → Option Rat
  pyFloatRepr : Rat → String
  checkPython : Except String (String × String)
  checkApiKeys : Except String (String × String)
  checkVersion : Except String String
  pipUpgrade : Except String (Bool × String)
  nowStamp : String
  jsonWrite : Except String Unit

/-- The `/help` text. -/
def helpText : String :=
  "\n**Available Commands:**\n\n**Agent Management:**\n• `/create <name>` - Create a new agent with specified name\n• `/agent <name>` - Switch to a different agent\n• `/info` - Show current agent information\n• `/reset` - Reset the current agent and clear history\n\n**Operations:**\n• `/task <description>` - Execute a task with the current agent\n• `/env` - Check environment status\n• `/upgrade` - Upgrade Swarms to latest version\n• `/version` - Show Swarms version\n\n**Configuration:**\n• `/model <name>` - Change the current model (e.g., gpt-4, claude-3)\n• `/temperature <value>` - Set temperature (0.0-2.0)\n• `/streaming on|off` - Enable/disable streaming\n\n**Utilities:**\n• `/clear` - Clear chat history\n• `/save` - Save conversation to file\n• `/help` - Show this help message\n\n**Quick Actions:**\n• Just type a message to chat with the current agent\n• Use natural language for tasks\n\n**Examples:**\n`/create DataAnalyst` - Create agent named DataAnalyst\n`/task Analyze the sales data` - Execute a task\n`/model gpt-4-turbo` - Switch to GPT-4 Turbo\n"

/-- Error text of `/agent` and `/info` when no agent is active. -/
def msgNoActive : String :=
  "❌ No agent currently active. Use `/create <name>` to create one."

/-- Error text of `/task`, `/model`, `/temperature`, `/streaming`
when no agent is active. -/
def msgNoAgent : String :=
  "❌ No agent active. Create one first with `/create <name>`"

/-- Usage error of `/task` with no argument. -/
def msgTaskUsage : String :=
  "❌ Please specify a task. Example: `/task Analyze this data`"

/-- Reply to an unrecognized command token. -/
def msgUnknown (command : String) : String :=
  "❌ Unknown command: `/" ++ command ++ "`\n\nType `/help` to see available commands."

/-- The handle built by the `Agent(...)` call in the `create` branch:
the supplied name with the hard-coded defaults. -/
def mkAgent (name : String) : Agent :=
  { agent_name := name, model_name := "gpt-4", temperature := 0.7, streaming_on := true }

/-- Embedding of `execute_chat_command`: the `if command == ... / elif ...` dispatch
chain, translated branch by branch. -/
def executeChatCommand (env : ChatEnv) (command : String) (args : String)
    (s : ChatAgentState) : ChatAgentState × String :=
  if command = "help" then
    (s, helpText)
  else if command = "create" then
    if args = "" then
      (s, "❌ Please specify an agent name. Example: `/create DataAnalyst`")
    else
      match env.agentCtor (pyStrip args) with
      | some e => (s, "❌ Error creating agent: " ++ e)
      | none =>
        let name := pyStrip args
        let agent : Agent := mkAgent name
        ({ s with store := s.store ++ [agent]
                  current_agent := some s.store.length
                  agent_name := name
                  conversation_history := [] },
         "✅ **Agent '" ++ name ++ "' created successfully!**\n\nYou can now chat with "
           ++ name ++ " or use `/task` to execute specific tasks.")
  else if command = "agent" then
    if args = "" then
      match s.current_agent with
      | some _ => (s, "📊 Current agent: **" ++ s.agent_name ++ "**")
      | none => (s, msgNoActive)
    else
      (s, "ℹ️ Agent switching not yet implemented. Current agent: " ++ s.agent_name)
  else if command = "info" then
    match s.current_agent with
    | none => (s, msgNoActive)
    | some i =>
      let a := s.store.getD i agentDefault
      (s, "\n**Current Agent Information:**\n\n• **Name:** " ++ s.agent_name
        ++ "\n• **Model:** " ++ a.model_name
        ++ "\n• **Temperature:** " ++ env.pyFloatRepr a.temperature
        ++ "\n• **Streaming:** " ++ (if a.streaming_on then "True" else "False")
        ++ "\n• **Messages in history:** " ++ toString s.conversation_history.length
        ++ "\n")
  else if command = "reset" then
    ({ s with current_agent := none, agent_name := "Assistant"
              conversation_history := [] },
     "✅ **Agent reset and history cleared.**\n\nUse `/create <name>` to create a new agent.")
  else if command = "task" then
    if args = "" then
      (s, msgTaskUsage)
    else
      match s.current_agent with
      | none => (s, msgNoAgent)
      | some i =>
        match env.agentRun (s.store.getD i agentDefault) args with
        | Except.ok r =>
          ({ s with conversation_history := s.conversation_history
                ++ [{ role := "user", content := "Task: " ++ args },
                    { role := "assistant", content := r }] },
           "**Task Result:**\n\n" ++ r)
        | Except.error e => (s, "❌ Error executing task: " ++ e)
  else if command = "env" then
    match env.checkPython with
    | Except.error e => (s, "❌ Error checking environment: " ++ e)
    | Except.ok (p1, p2) =>
      match env.checkApiKeys with
      | Except.error e => (s, "❌ Error checking environment: " ++ e)
      | Except.ok (a1, a2) =>
        (s, "\n**Environment Status:**\n\n• **Python:** " ++ p1 ++ " " ++ p2
          ++ "\n• **API Keys:** " ++ a1 ++ " " ++ a2
          ++ "\n• **Active Agent:** "
          ++ (match s.current_agent with
              | some _ => s.agent_name
              | none => "None")
          ++ "\n")
  else if command = "upgrade" then
    match env.pipUpgrade with
    | Except.ok (true, _) =>
      (s, "✅ **Swarms upgraded successfully!**\n\nRestart the GUI to use the new version.")
    | Except.ok (false, err) => (s, "❌ Upgrade failed:\n" ++ err)
    | Except.error e => (s, "❌ Error during upgrade: " ++ e)
  else if command = "version" then
    match env.checkVersion with
    | Except.ok v => (s, "**Swarms Version:** " ++ v)
    | Except.error e => (s, "❌ Error checking version: " ++ e)
  else if command = "model" then
    if args = "" then
      (s, "❌ Please specify a model. Example: `/model gpt-4-turbo`")
    else
      match s.current_agent with
      | none => (s, msgNoAgent)
      | some i =>
        let a := s.store.getD i agentDefault
        ({ s with store := s.store.set i { a with model_name := pyStrip args } },
         "✅ **Model changed to:** " ++ pyStrip args)
  else if command = "temperature" then
    if args = "" then
      (s, "❌ Please specify a temperature value (0.0-2.0). Example: `/temperature 0.7`")
    else
      match s.current_agent with
      | none => (s, msgNoAgent)
      | some i =>
        match env.pyFloat (pyStrip args) with
        | none => (s, "❌ Invalid temperature value. Must be a number between 0.0 and 2.0")
        | some t =>
          if t < 0 ∨ 2 < t then
            (s, "❌ Temperature must be between 0.0 and 2.0")
          else
            let a := s.store.getD i agentDefault
            ({ s with store := s.store.set i { a with temperature := t } },
             "✅ **Temperature set to:** " ++ env.pyFloatRepr t)
  else if command = "streaming" then
    match s.current_agent with
    | none => (s, msgNoAgent)
    | some i =>
      let a := s.store.getD i agentDefault
      if ["on", "true", "1", "yes"].contains (strLower args) then
        ({ s with store := s.store.set i { a with streaming_on := true } },
         "✅ **Streaming enabled**")
      else if ["off", "false", "0", "no"].contains (strLower args) then
        ({ s with store := s.store.set i { a with streaming_on := false } },
         "✅ **Streaming disabled**")
      else
        (s, "❌ Use `/streaming on` or `/streaming off`")
  else if command = "clear" then
    ({ s with conversation_history := [] }, "✅ **Chat history cleared**")
  else if command = "save" then
    match env.jsonWrite with
    | Except.ok _ =>
      (s, "✅ **Conversation saved to:** chat_history_" ++ env.nowStamp ++ ".json")
    | Except.error e => (s, "❌ Error saving conversation: " ++ e)
  else
    (s, msgUnknown command)

/-- Onboarding reply of the plain-message path with no active agent. -/
def msgWelcome : String :=
  "\n👋 **Welcome to Swarms Chat!**\n\nNo agent is currently active. To get started:\n\n1. Create an agent: `/create <name>`\n2. Or type `/help` to see all commands\n\n**Example:**\n`/create Assistant` - Creates a general assistant\n`/create DataScientist` - Creates a data science specialist\n"

/-- Error reply of the plain-message path when the run call raises. -/
def msgRunError (e : String) : String :=
  "❌ **Error:** " ++ e ++ "\n\nTry:\n• Check your API keys with `/env`\n• Create a new agent with `/create <name>`\n• Type `/help` for assistance"

/-- Embedding of `chat_interface`: given the raw message, the UI history (list of
`[message, response]` pairs) and the session state, return the new
state, the new UI history and the cleared textbox value. -/
def chatInterface (env : ChatEnv) (message : String)
    (history : List (String × String)) (s : ChatAgentState) :
    ChatAgentState × List (String × String) × String :=
  if message = "" ∨ pyStrip message = "" then
    (s, history, "")
  else
    match parseChatCommand message with
    | ParsedInput.command cmd args _ =>
      let (s1, response) := executeChatCommand env cmd args s
      (s1, history ++ [(message, response)], "")
    | ParsedInput.message _ _ =>
      match s.current_agent with
      | none => (s, history ++ [(message, msgWelcome)], "")
      | some i =>
        match env.agentRun (s.store.getD i agentDefault) message with
        | Except.ok r =>
          ({ s with conversation_history := s.conversation_history
                ++ [{ role := "user", content := message },
                    { role := "assistant", content := r }] },
           history ++ [(message, r)], "")
        | Except.error e => (s, history ++ [(message, msgRunError e)], "")

/-! ### Spec-side definitions for the parsing claim

These follow the specification's words, to be compared with
`parseChatCommand`, which is translated from the source. -/

/-- Spec reading of the command name: "the lowercase first
whitespace-delimited token with the leading `/` removed". -/
def specCmdOf (m : String) : String :=
  strLower (String.mk ((m.toList.takeWhile (fun c => !pySpace c)).drop 1))

/-- Spec reading of the argument: "the exact remainder trimmed of one
leading space (empty when there is no remainder)" — the text after the
first whitespace-delimited token, with a single leading space (when
present) removed. -/
def specArgOneSpace (m : String) : String :=
  match m.toList.drop (m.toList.takeWhile (fun c => !pySpace c)).length with
  | ' ' :: t => String.mk t
  | r => String.mk r

/-- Amended reading of the argument: the text after the first
whitespace-delimited token with the entire separating whitespace run
removed (which is what `split(maxsplit=1)` produces). -/
def specArgWsRun (m : String) : String :=
  String.mk ((m.toList.dropWhile (fun c => !pySpace c)).dropWhile pySpace)

/-! ### Substring containment -/

/-- The string `sub` occurs contiguously inside `hay`. -/
def strContains (hay sub : String) : Prop :=
  ∃ pre post : String, hay = pre ++ sub ++ post

/-- Boolean prefix test on character lists. -/
def pfx : List Char → List Char → Bool
  | [], _ => true
  | _ :: _, [] => false
  | a :: as, b :: bs => a = b && pfx as bs

/-- Boolean contiguous-sublist test. -/
def hasSub (sub : List Char) : List Char → Bool
  | [] => sub.isEmpty
  | c :: rest => pfx sub (c :: rest) || hasSub sub rest

/-- The command tokens the dispatch chain recognizes. -/
def knownCommands : List String :=
  ["help", "create", "agent", "info", "reset", "task", "env", "upgrade",
   "version", "model", "temperature", "streaming", "clear", "save"]

/-! ### Concrete environments and states for witnesses -/

/-- An environment where every delegated call succeeds. -/
def envOk : ChatEnv :=
  { agentCtor := fun _ => none
    agentRun := fun _ t => Except.ok ("R:" ++ t)
    pyFloat := fun _ => some 1
    pyFloatRepr := fun _ => "1.0"
    checkPython := Except.ok ("✅", "Python 3.11")
    checkApiKeys := Except.ok ("✅", "keys found")
    checkVersion := Except.ok "8.0.0"
    pipUpgrade := Except.ok (true, "")
    nowStamp := "20260101_000000"
    jsonWrite := Except.ok () }

/-- As `envOk`, but the agent run call raises. -/
def envRunFail : ChatEnv :=
  { envOk with agentRun := fun _ _ => Except.error "boom" }

/-- As `envOk`, but the agent constructor raises. -/
def envCtorFail : ChatEnv :=
  { envOk with agentCtor := fun _ => some "ctor down" }

/-- As `envOk`, but `float()` raises `ValueError`. -/
def envParseNone : ChatEnv :=
  { envOk with pyFloat := fun _ => none }

/-- As `envOk`, but `float()` parses to 3 (outside `[0, 2]`). -/
def envParseHigh : ChatEnv :=
  { envOk with pyFloat := fun _ => some 3 }

/-- A concrete agent handle. -/
def agentA : Agent :=
  { agent_name := "Ada", model_name := "gpt-4", temperature := 1, streaming_on := true }

/-- A state with one active agent. -/
def stateA : ChatAgentState :=
  { current_agent := some 0, agent_name := "Ada"
    conversation_history := [], store := [agentA] }

/-! ### Helper lemmas -/

theorem dropWhile_head_not (p : Char → Bool) (l : List Char) :
    ∀ c, (l.dropWhile p).head? = some c → p c = false := by
  induction l with
  | nil => intro c h; simp [List.dropWhile] at h
  | cons a t ih =>
    intro c h
    by_cases ha : p a
    · rw [List.dropWhile_cons_of_pos ha] at h
      exact ih c h
    · rw [List.dropWhile_cons_of_neg ha] at h
      simp at h
      rw [← h]
      exact Bool.eq_false_iff.mpr ha

theorem dropWhile_eq_self_of_head (p : Char → Bool) (l : List Char)
    (h : ∀ c, l.head? = some c → p c = false) : l.dropWhile p = l := by
  cases l with
  | nil => rfl
  | cons a t =>
    have := h a rfl
    simp [List.dropWhile, this]

theorem head?_append_left {α : Type} (l u : List α) (h : l ≠ []) :
    (l ++ u).head? = l.head? := by
  cases l with
  | nil => exact absurd rfl h
  | cons a t => rfl

/-- The stripped string has no leading whitespace, so the whitespace
skip that `split` performs is a no-op on it. -/
theorem pyStripL_no_leading (l : List Char) :
    (pyStripL l).dropWhile pySpace = pyStripL l := by
  unfold pyStripL
  set m := l.dropWhile pySpace with hm
  set x := m.reverse.dropWhile pySpace with hx
  apply dropWhile_eq_self_of_head
  intro c hc
  by_cases hnil : x.reverse = []
  · rw [hnil] at hc; simp at hc
  · have hsplit : m.reverse.takeWhile pySpace ++ x = m.reverse :=
      List.takeWhile_append_dropWhile pySpace m.reverse
    have hm2 : m = x.reverse ++ (m.reverse.takeWhile pySpace).reverse := by
      have := congrArg List.reverse hsplit
      rw [List.reverse_append, List.reverse_reverse] at this
      exact this.symm
    have hhead : m.head? = some c := by
      rw [hm2, head?_append_left _ _ hnil, hc]
    exact dropWhile_head_not pySpace l c hhead

theorem pfx_self_append (l u : List Char) : pfx l (l ++ u) = true := by
  induction l with
  | nil => rfl
  | cons a t ih => simp [pfx, ih]

theorem hasSub_of_append (pre mid post : List Char) :
    hasSub mid (pre ++ (mid ++ post)) = true := by
  induction pre with
  | nil =>
    cases h : mid ++ post with
    | nil =>
      have : mid = [] := by
        cases mid with
        | nil => rfl
        | cons a t => simp at h
      simp [this, hasSub]
    | cons c rest =>
      simp only [List.nil_append, h, hasSub]
      rw [← h, pfx_self_append]
      rfl
  | cons c pre ih =>
    simp [hasSub, ih]

theorem strContains_hasSub (hay sub : String)
    (h : strContains hay sub) : hasSub sub.toList hay.toList = true := by
  obtain ⟨pre, post, hh⟩ := h
  have : hay.toList = pre.toList ++ (sub.toList ++ post.toList) := by
    rw [hh]
    simp [String.toList]
  rw [this]
  exact hasSub_of_append _ _ _

theorem strContains_of_parts (pre sub post : String) :
    strContains (pre ++ sub ++ post) sub :=
  ⟨pre, post, rfl⟩

theorem pyStrip_toList (s : String) : (pyStrip s).toList = pyStripL s.toList := rfl

/-! ### C1 -/

/-- C1 (counterexample): on the input `"/a  b"` (two separating
spaces) the parser returns argument `"b"`, while the claim's reading —
the exact remainder trimmed of one leading space — gives `" b"`, so
the claimed equation fails at this input. -/
theorem chat_parse_one_space_counterexample :
    startsSlash (pyStrip "/a  b") = true ∧
    ¬ (parseChatCommand "/a  b" =
        ParsedInput.command (specCmdOf (pyStrip "/a  b"))
          (specArgOneSpace (pyStrip "/a  b")) (pyStrip "/a  b")) := by
  constructor
  · decide
  · intro h
    have harg : specArgOneSpace (pyStrip "/a  b") = "b" := by
      rw [show parseChatCommand "/a  b" =
            ParsedInput.command "a" "b" "/a  b" from by decide] at h
      exact (ParsedInput.command.injEq _ _ _ _ _ _).mp h.symm |>.2.1
    exact absurd harg (by decide)

/-- C1 (amended): for every input whose stripped form starts with
`/`, `parse_chat_command` yields the command result whose command is
the lowercase first whitespace-delimited token minus the leading `/`,
and whose argument is the remainder with the entire separating
whitespace run removed (empty when there is no remainder); every
other input is classified as a plain message carrying the whole
stripped input. -/
theorem chat_parse_spec (s : String) :
    (startsSlash (pyStrip s) = true →
      parseChatCommand s =
        ParsedInput.command (specCmdOf (pyStrip s)) (specArgWsRun (pyStrip s)) (pyStrip s)) ∧
    (startsSlash (pyStrip s) = false →
      parseChatCommand s = ParsedInput.message (pyStrip s) (pyStrip s)) := by
  have hnl : (pyStrip s).toList.dropWhile pySpace = (pyStrip s).toList := by
    rw [pyStrip_toList]
    exact pyStripL_no_leading s.toList
  constructor
  · intro h
    show (if startsSlash (pyStrip s) then _ else _) = _
    rw [if_pos h]
    show ParsedInput.command
        (strLower (String.mk
          ((((pyStrip s).toList.dropWhile pySpace).takeWhile (fun c => !pySpace c)).drop 1)))
        (String.mk
          ((((pyStrip s).toList.dropWhile pySpace).dropWhile (fun c => !pySpace c)).dropWhile pySpace))
        (pyStrip s) = _
    rw [hnl]
    rfl
  · intro h
    show (if startsSlash (pyStrip s) then _ else _) = _
    rw [if_neg (by simp [h])]

/-- C1 (witness for the amended theorem): both branches evaluated at
concrete inputs. -/
theorem chat_parse_spec_witness :
    parseChatCommand "/a  b" =
      ParsedInput.command (specCmdOf (pyStrip "/a  b"))
        (specArgWsRun (pyStrip "/a  b")) (pyStrip "/a  b") ∧
    parseChatCommand " hi there " =
      ParsedInput.message (pyStrip " hi there ") (pyStrip " hi there ") :=
  ⟨(chat_parse_spec "/a  b").1 (by decide),
   (chat_parse_spec " hi there ").2 (by decide)⟩

/-! ### C2 -/

/-- C2: with an active agent and non-empty task text, a successful run
appends exactly the pair `user` (content `"Task: " ++ T`, which
contains `T`) then `assistant` (content equal to the run result) to
the conversation history and returns the task-result text; a raising
run leaves the state — in particular the history — unchanged and
returns an error string. -/
theorem chat_task_history_pairs (env : ChatEnv) (s : ChatAgentState) (i : Nat)
    (args : String) (hag : s.current_agent = some i) (hargs : args ≠ "") :
    (∀ r, env.agentRun (s.store.getD i agentDefault) args = Except.ok r →
      executeChatCommand env "task" args s =
        ({ s with conversation_history := s.conversation_history
              ++ [{ role := "user", content := "Task: " ++ args },
                  { role := "assistant", content := r }] },
         "**Task Result:**\n\n" ++ r) ∧
      strContains ("Task: " ++ args) args) ∧
    (∀ e, env.agentRun (s.store.getD i agentDefault) args = Except.error e →
      executeChatCommand env "task" args s = (s, "❌ Error executing task: " ++ e)) := by
  have hbase : executeChatCommand env "task" args s =
      match env.agentRun (s.store.getD i agentDefault) args with
      | Except.ok r =>
        ({ s with conversation_history := s.conversation_history
              ++ [{ role := "user", content := "Task: " ++ args },
                  { role := "assistant", content := r }] },
         "**Task Result:**\n\n" ++ r)
      | Except.error e => (s, "❌ Error executing task: " ++ e) := by
    show (if args = "" then (s, msgTaskUsage)
      else match s.current_agent with
        | none => (s, msgNoAgent)
        | some i =>
          match env.agentRun (s.store.getD i agentDefault) args with
          | Except.ok r =>
            ({ s with conversation_history := s.conversation_history
                  ++ [{ role := "user", content := "Task: " ++ args },
                      { role := "assistant", content := r }] },
             "**Task Result:**\n\n" ++ r)
          | Except.error e => (s, "❌ Error executing task: " ++ e)) = _
    rw [if_neg hargs, hag]
  constructor
  · intro r hr
    rw [hbase, hr]
    exact ⟨rfl, "Task: ", "", by simp⟩
  · intro e he
    rw [hbase, he]

/-- C2 (witness): a successful and a failing run at concrete inputs. -/
theorem chat_task_history_pairs_witness :
    executeChatCommand envOk "task" "go" stateA =
      ({ stateA with conversation_history := stateA.conversation_history
            ++ [{ role := "user", content := "Task: go" },
                { role := "assistant", content := "R:go" }] },
       "**Task Result:**\n\nR:go") ∧
    executeChatCommand envRunFail "task" "go" stateA =
      (stateA, "❌ Error executing task: boom") :=
  ⟨((chat_task_history_pairs envOk stateA 0 "go" rfl (by decide)).1 "R:go" rfl).1,
   (chat_task_history_pairs envRunFail stateA 0 "go" rfl (by decide)).2 "boom" rfl⟩

/-! ### C3 -/

/-- C3: with an active agent and a non-empty argument, a `ValueError`
from `float()` or a parsed value outside `[0, 2]` yields a user error
and leaves the state (hence the handle's temperature) unchanged; a
parsed value inside `[0, 2]` updates the held handle's temperature to
that value and reports success. -/
theorem chat_temperature_guard (env : ChatEnv) (s : ChatAgentState) (i : Nat)
    (args : String) (hargs : args ≠ "") (hag : s.current_agent = some i)
    (hi : i < s.store.length) :
    (env.pyFloat (pyStrip args) = none →
      executeChatCommand env "temperature" args s =
        (s, "❌ Invalid temperature value. Must be a number between 0.0 and 2.0")) ∧
    (∀ q, env.pyFloat (pyStrip args) = some q → (q < 0 ∨ 2 < q) →
      executeChatCommand env "temperature" args s =
        (s, "❌ Temperature must be between 0.0 and 2.0")) ∧
    (∀ q, env.pyFloat (pyStrip args) = some q → ¬(q < 0 ∨ 2 < q) →
      executeChatCommand env "temperature" args s =
        ({ s with store :=
            s.store.set i { s.store.getD i agentDefault with temperature := q } },
         "✅ **Temperature set to:** " ++ env.pyFloatRepr q) ∧
      ((executeChatCommand env "temperature" args s).1.store.getD i agentDefault).temperature = q) := by
  have hbase : executeChatCommand env "temperature" args s =
      match env.pyFloat (pyStrip args) with
      | none => (s, "❌ Invalid temperature value. Must be a number between 0.0 and 2.0")
      | some t =>
        if t < 0 ∨ 2 < t then (s, "❌ Temperature must be between 0.0 and 2.0")
        else
          ({ s with store :=
              s.store.set i { s.store.getD i agentDefault with temperature := t } },
           "✅ **Temperature set to:** " ++ env.pyFloatRepr t) := by
    show (if args = ""
      then (s, "❌ Please specify a temperature value (0.0-2.0). Example: `/temperature 0.7`")
      else match s.current_agent with
        | none => (s, msgNoAgent)
        | some i =>
          match env.pyFloat (pyStrip args) with
          | none => (s, "❌ Invalid temperature value. Must be a number between 0.0 and 2.0")
          | some t =>
            if t < 0 ∨ 2 < t then (s, "❌ Temperature must be between 0.0 and 2.0")
            else
              ({ s with store :=
                  s.store.set i { s.store.getD i agentDefault with temperature := t } },
               "✅ **Temperature set to:** " ++ env.pyFloatRepr t)) = _
    rw [if_neg hargs, hag]
  refine ⟨fun hp => ?_, fun q hp hout => ?_, fun q hp hin => ?_⟩
  · rw [hbase, hp]
  · rw [hbase, hp]
    exact if_pos hout
  · have heq : executeChatCommand env "temperature" args s =
        ({ s with store :=
            s.store.set i { s.store.getD i agentDefault with temperature := q } },
         "✅ **Temperature set to:** " ++ env.pyFloatRepr q) := by
      rw [hbase, hp]
      exact if_neg hin
    refine ⟨heq, ?_⟩
    rw [heq]
    show ((s.store.set i { s.store.getD i agentDefault with temperature := q }).getD
      i agentDefault).temperature = q
    rw [List.getD_eq_getElem _ _ (by simpa using hi)]
    simp [List.getElem_set_self]

/-- C3 (witness): parse failure, out-of-range value and in-range value
at concrete inputs. -/
theorem chat_temperature_guard_witness :
    executeChatCommand envParseNone "temperature" "abc" stateA =
      (stateA, "❌ Invalid temperature value. Must be a number between 0.0 and 2.0") ∧
    executeChatCommand envParseHigh "temperature" "3" stateA =
      (stateA, "❌ Temperature must be between 0.0 and 2.0") ∧
    executeChatCommand envOk "temperature" "1" stateA =
      ({ stateA with store :=
          stateA.store.set 0 { stateA.store.getD 0 agentDefault with temperature := 1 } },
       "✅ **Temperature set to:** 1.0") :=
  ⟨(chat_temperature_guard envParseNone stateA 0 "abc" (by decide) rfl (by decide)).1 rfl,
   (chat_temperature_guard envParseHigh stateA 0 "3" (by decide) rfl (by decide)).2.1
     3 rfl (by decide),
   ((chat_temperature_guard envOk stateA 0 "1" (by decide) rfl (by decide)).2.2
     1 rfl (by decide)).1⟩

/-! ### C4 -/

/-- C4 (counterexample): with no active agent and the empty task text
(the input `/task` with no argument), the state is unchanged but the
returned usage error does not contain the literal text `"create"`, so
the claim fails at `T = ""`. -/
theorem chat_task_no_agent_counterexample :
    initialState.current_agent = none ∧
    ¬ ((executeChatCommand envOk "task" "" initialState).1 = initialState ∧
       strContains ((executeChatCommand envOk "task" "" initialState).2) "create") := by
  refine ⟨rfl, fun h => ?_⟩
  have hb := strContains_hasSub _ _ h.2
  rw [show (executeChatCommand envOk "task" "" initialState).2 = msgTaskUsage from rfl] at hb
  exact absurd hb (by decide)

/-- C4 (amended): with no active agent, the task command never mutates
the session (for every task text, including the empty one) and returns
a user error; when the task text is non-empty that error is the
no-agent message, which contains the literal text `"create"`. -/
theorem chat_task_no_agent (env : ChatEnv) (s : ChatAgentState) (T : String)
    (h : s.current_agent = none) :
    (executeChatCommand env "task" T s).1 = s ∧
    (T ≠ "" → (executeChatCommand env "task" T s).2 = msgNoAgent ∧
      strContains msgNoAgent "create") := by
  have hbase : ∀ u : ChatAgentState × String,
      (if T = "" then (s, msgTaskUsage)
        else match s.current_agent with
          | none => (s, msgNoAgent)
          | some i =>
            match env.agentRun (s.store.getD i agentDefault) T with
            | Except.ok r =>
              ({ s with conversation_history := s.conversation_history
                    ++ [{ role := "user", content := "Task: " ++ T },
                        { role := "assistant", content := r }] },
               "**Task Result:**\n\n" ++ r)
            | Except.error e => (s, "❌ Error executing task: " ++ e)) = u →
      executeChatCommand env "task" T s = u := fun u hu => hu
  by_cases hT : T = ""
  · subst hT
    exact ⟨rfl, fun hc => absurd rfl hc⟩
  · have hrun : executeChatCommand env "task" T s = (s, msgNoAgent) := by
      apply hbase
      rw [if_neg hT, h]
    refine ⟨by rw [hrun], fun _ => ⟨by rw [hrun], ?_⟩⟩
    exact ⟨"❌ No agent active. Create one first with `/", " <name>`", rfl⟩

/-- C4 (witness): the amended claim evaluated at a concrete non-empty
task text with no active agent. -/
theorem chat_task_no_agent_witness :
    (executeChatCommand envOk "task" "go" initialState).1 = initialState ∧
    (executeChatCommand envOk "task" "go" initialState).2 = msgNoAgent ∧
    strContains msgNoAgent "create" :=
  ⟨(chat_task_no_agent envOk initialState "go" rfl).1,
   (chat_task_no_agent envOk initialState "go" rfl).2 (by decide)⟩

/-! ### C5 -/

/-- Reduction of a successful `create`: guard passed and constructor
succeeded, so the handle is stored, the reference and display name are
replaced and the history is reset. -/
theorem exec_create_ok (env : ChatEnv) (s : ChatAgentState) (name : String)
    (hn : name ≠ "") (hc : env.agentCtor (pyStrip name) = none) :
    executeChatCommand env "create" name s =
      ({ s with store := s.store ++ [mkAgent (pyStrip name)]
                current_agent := some s.store.length
                agent_name := pyStrip name
                conversation_history := [] },
       "✅ **Agent '" ++ pyStrip name ++ "' created successfully!**\n\nYou can now chat with "
         ++ pyStrip name ++ " or use `/task` to execute specific tasks.") := by
  show (if name = ""
    then (s, "❌ Please specify an agent name. Example: `/create DataAnalyst`")
    else match env.agentCtor (pyStrip name) with
      | some e => (s, "❌ Error creating agent: " ++ e)
      | none =>
        ({ s with store := s.store ++ [mkAgent (pyStrip name)]
                  current_agent := some s.store.length
                  agent_name := pyStrip name
                  conversation_history := [] },
         "✅ **Agent '" ++ pyStrip name ++ "' created successfully!**\n\nYou can now chat with "
           ++ pyStrip name ++ " or use `/task` to execute specific tasks.")) = _
  rw [if_neg hn, hc]

/-- C5 (counterexample): with names `"A"` then `" B"` (non-empty, and
both constructions succeed), the session's agent name afterwards is
`"B"` — the stripped name — not the literal `" B"`, so the claim as
stated fails. -/
theorem chat_create_twice_counterexample :
    ("A" ≠ "" ∧ " B" ≠ "" ∧
      envOk.agentCtor (pyStrip "A") = none ∧ envOk.agentCtor (pyStrip " B") = none) ∧
    ¬ ((executeChatCommand envOk "create" " B"
          ((executeChatCommand envOk "create" "A" initialState).1)).1.agent_name = " B") :=
  ⟨⟨by decide, by decide, rfl, rfl⟩, by decide⟩

/-- C5 (amended): for every starting state and non-empty names `X`,
`Y` whose constructions succeed, `create X` then `create Y` leaves the
session holding an agent handle, named `Y` stripped of surrounding
whitespace (identical to `Y` whenever `Y` carries none, as every
argument produced by the input parser does), with an empty
conversation history. -/
theorem chat_create_twice (env : ChatEnv) (s : ChatAgentState) (X Y : String)
    (hX : X ≠ "") (hY : Y ≠ "")
    (hcX : env.agentCtor (pyStrip X) = none) (hcY : env.agentCtor (pyStrip Y) = none) :
    (executeChatCommand env "create" Y
        ((executeChatCommand env "create" X s).1)).1.agent_name = pyStrip Y ∧
    (executeChatCommand env "create" Y
        ((executeChatCommand env "create" X s).1)).1.current_agent.isSome = true ∧
    (executeChatCommand env "create" Y
        ((executeChatCommand env "create" X s).1)).1.conversation_history = [] := by
  rw [exec_create_ok env s X hX hcX,
      exec_create_ok env _ Y hY hcY]
  exact ⟨rfl, rfl, rfl⟩

/-- C5 (witness): two successful creates at concrete inputs. -/
theorem chat_create_twice_witness :
    (executeChatCommand envOk "create" "Bob"
        ((executeChatCommand envOk "create" "Alice" initialState).1)).1.agent_name = pyStrip "Bob" ∧
    (executeChatCommand envOk "create" "Bob"
        ((executeChatCommand envOk "create" "Alice" initialState).1)).1.current_agent.isSome = true ∧
    (executeChatCommand envOk "create" "Bob"
        ((executeChatCommand envOk "create" "Alice" initialState).1)).1.conversation_history = [] :=
  chat_create_twice envOk initialState "Alice" "Bob" (by decide) (by decide) rfl rfl

/-! ### C6 -/

/-- C6: after a reset, the info command always reports the no-agent
error, whatever the prior state and whatever arguments either command
received, because reset nulls out the active agent. -/
theorem chat_reset_then_info (env env2 : ChatEnv) (s : ChatAgentState)
    (rargs iargs : String) :
    executeChatCommand env2 "info" iargs ((executeChatCommand env "reset" rargs s).1) =
      ((executeChatCommand env "reset" rargs s).1, msgNoActive) := rfl

/-! ### Per-command reduction equations

Each equation evaluates the dispatch chain at a literal command token,
leaving the branch body; all follow by computation. -/

theorem exec_help (env : ChatEnv) (args : String) (s : ChatAgentState) :
    executeChatCommand env "help" args s = (s, helpText) := rfl

theorem exec_agent (env : ChatEnv) (args : String) (s : ChatAgentState) :
    executeChatCommand env "agent" args s =
      (if args = "" then
        match s.current_agent with
        | some _ => (s, "📊 Current agent: **" ++ s.agent_name ++ "**")
        | none => (s, msgNoActive)
      else
        (s, "ℹ️ Agent switching not yet implemented. Current agent: " ++ s.agent_name)) := rfl

theorem exec_info (env : ChatEnv) (args : String) (s : ChatAgentState) :
    executeChatCommand env "info" args s =
      (match s.current_agent with
      | none => (s, msgNoActive)
      | some i =>
        let a := s.store.getD i agentDefault
        (s, "\n**Current Agent Information:**\n\n• **Name:** " ++ s.agent_name
          ++ "\n• **Model:** " ++ a.model_name
          ++ "\n• **Temperature:** " ++ env.pyFloatRepr a.temperature
          ++ "\n• **Streaming:** " ++ (if a.streaming_on then "True" else "False")
          ++ "\n• **Messages in history:** " ++ toString s.conversation_history.length
          ++ "\n")) := rfl

theorem exec_task (env : ChatEnv) (args : String) (s : ChatAgentState) :
    executeChatCommand env "task" args s =
      (if args = "" then (s, msgTaskUsage)
      else
        match s.current_agent with
        | none => (s, msgNoAgent)
        | some i =>
          match env.agentRun (s.store.getD i agentDefault) args with
          | Except.ok r =>
            ({ s with conversation_history := s.conversation_history
                  ++ [{ role := "user", content := "Task: " ++ args },
                      { role := "assistant", content := r }] },
             "**Task Result:**\n\n" ++ r)
          | Except.error e => (s, "❌ Error executing task: " ++ e)) := rfl

theorem exec_env (env : ChatEnv) (args : String) (s : ChatAgentState) :
    executeChatCommand env "env" args s =
      (match env.checkPython with
      | Except.error e => (s, "❌ Error checking environment: " ++ e)
      | Except.ok (p1, p2) =>
        match env.checkApiKeys with
        | Except.error e => (s, "❌ Error checking environment: " ++ e)
        | Except.ok (a1, a2) =>
          (s, "\n**Environment Status:**\n\n• **Python:** " ++ p1 ++ " " ++ p2
            ++ "\n• **API Keys:** " ++ a1 ++ " " ++ a2
            ++ "\n• **Active Agent:** "
            ++ (match s.current_agent with
                | some _ => s.agent_name
                | none => "None")
            ++ "\n")) := rfl

theorem exec_upgrade (env : ChatEnv) (args : String) (s : ChatAgentState) :
    executeChatCommand env "upgrade" args s =
      (match env.pipUpgrade with
      | Except.ok (true, _) =>
        (s, "✅ **Swarms upgraded successfully!**\n\nRestart the GUI to use the new version.")
      | Except.ok (false, err) => (s, "❌ Upgrade failed:\n" ++ err)
      | Except.error e => (s, "❌ Error during upgrade: " ++ e)) := rfl

theorem exec_version (env : ChatEnv) (args : String) (s : ChatAgentState) :
    executeChatCommand env "version" args s =
      (match env.checkVersion with
      | Except.ok v => (s, "**Swarms Version:** " ++ v)
      | Except.error e => (s, "❌ Error checking version: " ++ e)) := rfl

theorem exec_model (env : ChatEnv) (args : String) (s : ChatAgentState) :
    executeChatCommand env "model" args s =
      (if args = "" then
        (s, "❌ Please specify a model. Example: `/model gpt-4-turbo`")
      else
        match s.current_agent with
        | none => (s, msgNoAgent)
        | some i =>
          let a := s.store.getD i agentDefault
          ({ s with store := s.store.set i { a with model_name := pyStrip args } },
           "✅ **Model changed to:** " ++ pyStrip args)) := rfl

theorem exec_temperature (env : ChatEnv) (args : String) (s : ChatAgentState) :
    executeChatCommand env "temperature" args s =
      (if args = "" then
        (s, "❌ Please specify a temperature value (0.0-2.0). Example: `/temperature 0.7`")
      else
        match s.current_agent with
        | none => (s, msgNoAgent)
        | some i =>
          match env.pyFloat (pyStrip args) with
          | none => (s, "❌ Invalid temperature value. Must be a number between 0.0 and 2.0")
          | some t =>
            if t < 0 ∨ 2 < t then
              (s, "❌ Temperature must be between 0.0 and 2.0")
            else
              let a := s.store.getD i agentDefault
              ({ s with store := s.store.set i { a with temperature := t } },
               "✅ **Temperature set to:** " ++ env.pyFloatRepr t)) := rfl

theorem exec_streaming (env : ChatEnv) (args : String) (s : ChatAgentState) :
    executeChatCommand env "streaming" args s =
      (match s.current_agent with
      | none => (s, msgNoAgent)
      | some i =>
        let a := s.store.getD i agentDefault
        if ["on", "true", "1", "yes"].contains (strLower args) then
          ({ s with store := s.store.set i { a with streaming_on := true } },
           "✅ **Streaming enabled**")
        else if ["off", "false", "0", "no"].contains (strLower args) then
          ({ s with store := s.store.set i { a with streaming_on := false } },
           "✅ **Streaming disabled**")
        else
          (s, "❌ Use `/streaming on` or `/streaming off`")) := rfl

theorem exec_clear (env : ChatEnv) (args : String) (s : ChatAgentState) :
    executeChatCommand env "clear" args s =
      ({ s with conversation_history := [] }, "✅ **Chat history cleared**") := rfl

theorem exec_save (env : ChatEnv) (args : String) (s : ChatAgentState) :
    executeChatCommand env "save" args s =
      (match env.jsonWrite with
      | Except.ok _ =>
        (s, "✅ **Conversation saved to:** chat_history_" ++ env.nowStamp ++ ".json")
      | Except.error e => (s, "❌ Error saving conversation: " ++ e)) := rfl

/-- Reduction of the final `else`: a token matching no branch returns
the unknown-command message and the untouched state. -/
theorem exec_unknown (env : ChatEnv) (cmd args : String) (s : ChatAgentState)
    (hne : ∀ c ∈ knownCommands, cmd ≠ c) :
    executeChatCommand env cmd args s = (s, msgUnknown cmd) := by
  unfold executeChatCommand
  rw [if_neg (hne "help" (by decide)), if_neg (hne "create" (by decide)),
      if_neg (hne "agent" (by decide)), if_neg (hne "info" (by decide)),
      if_neg (hne "reset" (by decide)), if_neg (hne "task" (by decide)),
      if_neg (hne "env" (by decide)), if_neg (hne "upgrade" (by decide)),
      if_neg (hne "version" (by decide)), if_neg (hne "model" (by decide)),
      if_neg (hne "temperature" (by decide)), if_neg (hne "streaming" (by decide)),
      if_neg (hne "clear" (by decide)), if_neg (hne "save" (by decide))]

/-! ### C7 -/

/-- C7: every command other than `create` and `reset` leaves
`current_agent` untouched: `model`, `temperature` and `streaming`
mutate attributes of the handle in the store but never replace or
clear the reference, and all remaining commands never reassign it. -/
theorem chat_commands_preserve_agent (env : ChatEnv) (cmd args : String)
    (s : ChatAgentState) (hcr : cmd ≠ "create") (hrs : cmd ≠ "reset") :
    (executeChatCommand env cmd args s).1.current_agent = s.current_agent := by
  by_cases hhelp : cmd = "help"
  · subst hhelp; rw [exec_help]
  by_cases hagent : cmd = "agent"
  · subst hagent; rw [exec_agent]; repeat' split
    all_goals rfl
  by_cases hinfo : cmd = "info"
  · subst hinfo; rw [exec_info]; repeat' split
    all_goals rfl
  by_cases htask : cmd = "task"
  · subst htask; rw [exec_task]; repeat' split
    all_goals rfl
  by_cases henv : cmd = "env"
  · subst henv; rw [exec_env]; repeat' split
    all_goals rfl
  by_cases hupgr : cmd = "upgrade"
  · subst hupgr; rw [exec_upgrade]; repeat' split
    all_goals rfl
  by_cases hver : cmd = "version"
  · subst hver; rw [exec_version]; repeat' split
    all_goals rfl
  by_cases hmodel : cmd = "model"
  · subst hmodel; rw [exec_model]; repeat' split
    all_goals rfl
  by_cases htemp : cmd = "temperature"
  · subst htemp; rw [exec_temperature]; repeat' split
    all_goals rfl
  by_cases hstr : cmd = "streaming"
  · subst hstr; rw [exec_streaming]; repeat' split
    all_goals rfl
  by_cases hclear : cmd = "clear"
  · subst hclear; rw [exec_clear]
  by_cases hsave : cmd = "save"
  · subst hsave; rw [exec_save]; repeat' split
    all_goals rfl
  rw [exec_unknown env cmd args s ?_]
  intro c hcm
  simp only [knownCommands, List.mem_cons, List.not_mem_nil, or_false] at hcm
  rcases hcm with rfl | rfl | rfl | rfl | rfl | rfl | rfl | rfl | rfl | rfl | rfl | rfl | rfl | rfl
    <;> assumption

/-- C7 (witness): a handle-mutating command evaluated concretely. -/
theorem chat_commands_preserve_agent_witness :
    (executeChatCommand envOk "model" "m2" stateA).1.current_agent = stateA.current_agent :=
  chat_commands_preserve_agent envOk "model" "m2" stateA (by decide) (by decide)

/-! ### C8 -/

/-- C8: a command token outside the dispatch table returns the
unknown-command message, which contains the literal offending token,
and leaves every field of the session unchanged. -/
theorem chat_unknown_command (env : ChatEnv) (cmd args : String)
    (s : ChatAgentState) (h : cmd ∉ knownCommands) :
    executeChatCommand env cmd args s = (s, msgUnknown cmd) ∧
    strContains (msgUnknown cmd) cmd :=
  ⟨exec_unknown env cmd args s (fun _c hcm he => h (he ▸ hcm)),
   "❌ Unknown command: `/", "`\n\nType `/help` to see available commands.", rfl⟩

/-- C8 (witness): the unknown token `foo` evaluated concretely. -/
theorem chat_unknown_command_witness :
    executeChatCommand envOk "foo" "bar" stateA = (stateA, msgUnknown "foo") ∧
    strContains (msgUnknown "foo") "foo" :=
  chat_unknown_command envOk "foo" "bar" stateA (by decide)

/-! ### C9 -/

/-- C9: handling any input — whatever the outcomes of the delegated
calls, exceptions included — produces a new state, a cleared textbox
and a textual response appended to the UI history (nothing is appended
only for blank input); the handler is a total function, so no
exception escapes it. -/
theorem chat_interface_total (env : ChatEnv) (message : String)
    (history : List (String × String)) (s : ChatAgentState) :
    ∃ s1 response, chatInterface env message history s =
      (s1, (if pyStrip message = "" then history
            else history ++ [(message, response)]), "") := by
  by_cases hm : message = "" ∨ pyStrip message = ""
  · have hstrip : pyStrip message = "" := by
      rcases hm with hm | hm
      · rw [hm]; rfl
      · exact hm
    refine ⟨s, "", ?_⟩
    unfold chatInterface
    rw [if_pos hm, if_pos hstrip]
  · have hne : ¬ pyStrip message = "" := fun hh => hm (Or.inr hh)
    rcases hp : parseChatCommand message with ⟨cmd, cargs, raw⟩ | ⟨content, raw⟩
    · rcases he : executeChatCommand env cmd cargs s with ⟨s1, r⟩
      refine ⟨s1, r, ?_⟩
      unfold chatInterface
      rw [if_neg hm, hp]
      simp only []
      rw [he, if_neg hne]
    · cases ha : s.current_agent with
      | none =>
        refine ⟨s, msgWelcome, ?_⟩
        unfold chatInterface
        rw [if_neg hm, hp]
        simp only []
        rw [ha, if_neg hne]
      | some i =>
        cases hrun : env.agentRun (s.store.getD i agentDefault) message with
        | ok r =>
          refine ⟨{ s with conversation_history := s.conversation_history
              ++ [{ role := "user", content := message },
                  { role := "assistant", content := r }] }, r, ?_⟩
          unfold chatInterface
          rw [if_neg hm, hp]
          simp only []
          rw [ha]
          simp only []
          rw [hrun, if_neg hne]
        | error e =>
          refine ⟨s, msgRunError e, ?_⟩
          unfold chatInterface
          rw [if_neg hm, hp]
          simp only []
          rw [ha]
          simp only []
          rw [hrun, if_neg hne]

/-! ### C10 -/

/-- C10: when the constructor raises, `create` returns an error string
and leaves the entire session unchanged — handle reference, display
name, history and store — because the state assignments follow the
construction. -/
theorem chat_create_fail_frame (env : ChatEnv) (s : ChatAgentState)
    (name e : String) (hn : name ≠ "")
    (hc : env.agentCtor (pyStrip name) = some e) :
    executeChatCommand env "create" name s = (s, "❌ Error creating agent: " ++ e) := by
  show (if name = ""
    then (s, "❌ Please specify an agent name. Example: `/create DataAnalyst`")
    else match env.agentCtor (pyStrip name) with
      | some e => (s, "❌ Error creating agent: " ++ e)
      | none =>
        ({ s with store := s.store ++ [mkAgent (pyStrip name)]
                  current_agent := some s.store.length
                  agent_name := pyStrip name
                  conversation_history := [] },
         "✅ **Agent '" ++ pyStrip name ++ "' created successfully!**\n\nYou can now chat with "
           ++ pyStrip name ++ " or use `/task` to execute specific tasks.")) = _
  rw [if_neg hn, hc]

/-- C10 (witness): a raising constructor evaluated concretely. -/
theorem chat_create_fail_frame_witness :
    executeChatCommand envCtorFail "create" "Eve" stateA =
      (stateA, "❌ Error creating agent: ctor down") :=
  chat_create_fail_frame envCtorFail stateA "Eve" "ctor down" (by decide) rfl

end SwarmsGui
